import Mathlib

/-!
Verification of the py_XRF acquisition-coordination core.

This file gives a shallow embedding, in Lean, of the state-and-event logic of
the repository: the sequence orchestrator (logic/sequence_manager.py), the
single-acquisition orchestrator (logic/single_acquistion_manager.py), the DP5
controller (controllers/dp5_controller.py), the MiniX controller
(controllers/minix_controller.py), the base controller
(controllers/base_controller.py) and the acquisition worker
(workers/dp5_worker.py).  Hardware and operating-system behaviour (whether a
native call raises, what a status fetch returns, whether a folder exists) is
supplied through explicit environment records, so every Python execution path
corresponds to a choice of environment.  Qt signal emissions are modelled as
event lists in program order.  Python float durations are modelled as
rationals; none of the verified properties depends on float rounding.
-/

/-- Python truthiness of an optional boolean value: None is falsy, a plain
boolean is itself.  Used to model call sites such as
`if not save_success:` where the callee may return None, True or False. -/
def truthy : Option Bool → Bool
  | none => false
  | some b => b

/-! ## Events

Qt signals emitted by the sequence manager and the controllers it drives,
in program order.  Payloads keep only the parts the claims talk about. -/

inductive SeqEvent where
  | statusUpdate (msg : String)
  | sequenceStarted
  | stepStarting (cur total : Int)
  | stepFinished (cur total : Int)
  | pausing (ms : Int)
  | sequenceFinished (reps : Int)
  | sequenceAborted (reason : String)
  | requestSafeHvOn
  | minixStatus (msg : String)
  | minixError (msg : String)
  | dp5StopRequested
  deriving DecidableEq, Repr

def isSeqFinished : SeqEvent → Bool
  | .sequenceFinished _ => true
  | _ => false

def isSeqAborted : SeqEvent → Bool
  | .sequenceAborted _ => true
  | _ => false

def isStepFinished : SeqEvent → Bool
  | .stepFinished _ _ => true
  | _ => false

/-! ## MiniX controller (controllers/minix_controller.py)

State visible to the sequence manager.  `hvFlag` is the high-voltage state of
the source as commanded over the API: `send_command(mxcHVOff)` clears it,
a granted safe-HV-on request sets it. -/

structure MiniXState where
  apiLoaded : Bool
  appRunning : Bool
  connected : Bool
  hvFlag : Bool
  deriving DecidableEq, Repr

namespace MiniXController

/-- Embeds MiniXController.set_hv_off (minix_controller.py lines 229-246):
report an error if the API is missing or the controller application is not
running; otherwise send mxcHVOff.  `sendRaises` tells whether the
send_command call raises (APICommandError etc.); the method catches the
exception and reports it, leaving HV unchanged.  On success the command turns
the source HV off. -/
def set_hv_off (sendRaises : Bool) (m : MiniXState) : MiniXState × List SeqEvent :=
  if ¬ m.apiLoaded then (m, [.minixError "MiniX API not loaded."])
  else if ¬ m.appRunning then (m, [.minixError "Controller not running."])
  else if sendRaises then
    (m, [.minixStatus "Attempting to turn HV OFF...",
         .minixError "Failed to turn HV OFF."])
  else
    ({m with hvFlag := false},
     [.minixStatus "Attempting to turn HV OFF...",
      .minixStatus "HV OFF command sent."])

end MiniXController

/-! ## Sequence manager (logic/sequence_manager.py) -/

structure SeqState where
  running : Bool
  errorReason : String
  currentRep : Int
  totalReps : Int
  duration : Rat
  minixContinuous : Bool
  saveFolder : String
  pauseMs : Int
  minix : Option MiniXState
  dp5Present : Bool
  dp5Connected : Bool
  dp5Acquiring : Bool
  deriving DecidableEq, Repr

/-- Environment of one repetition: what the outside world (user, UI, DP5
controller, file system, MiniX API) does while this repetition runs. -/
structure RepEnv where
  userStop : Bool
  hvOnGranted : Bool
  dp5ConnectedAtStart : Bool
  startAcquisitionRaises : Bool
  folderOkAtSave : Bool
  saveCallRaises : Bool
  saveResult : Option Bool
  hvOffRaises : Bool
  deriving DecidableEq, Repr

namespace SequenceManager

/-- The `not self.minix_ctrl or not self.minix_ctrl.is_connected` test. -/
def minixConnected (s : SeqState) : Bool :=
  (s.minix.map (fun m => m.connected)).getD false

/-- The UI-mediated safe HV-on request (request_safe_hv_on signal): if the
user confirms and the command succeeds, the source HV turns on. -/
def grantSafeHvOn (granted : Bool) (s : SeqState) : SeqState :=
  {s with minix :=
    if granted then
      match s.minix with
      | some m => some {m with hvFlag := true}
      | none => none
    else s.minix}

/-- Embeds SequenceManager._finalize (sequence_manager.py lines 213-241):
early return when already finalized; otherwise remember `was_running`, clear
the running flag, turn source HV off when continuous mode was used and the
run was running (errors from set_hv_off are caught), emit the terminal
signal (nothing when aborted, `sequence_finished` with the corrected count
when the run completed), and clear the error reason. -/
def finalize (hvOffRaises : Bool) (s : SeqState) : SeqState × List SeqEvent :=
  if ¬ s.running ∧ s.errorReason = "" then (s, [])
  else
    let wasRunning := s.running
    let s1 := {s with running := false}
    let hvStep : Option MiniXState × List SeqEvent :=
      if s1.minixContinuous ∧ wasRunning then
        match s1.minix with
        | some m =>
          let r := MiniXController.set_hv_off hvOffRaises m
          (some r.1, r.2)
        | none => (none, [])
      else (s1.minix, [])
    let s2 := {s1 with minix := hvStep.1}
    let evTerm :=
      if s2.errorReason ≠ "" then []
      else if wasRunning then
        let finalReps :=
          if s2.currentRep > s2.totalReps then s2.currentRep - 1 else s2.currentRep
        [SeqEvent.statusUpdate "Sequence finished.",
         SeqEvent.sequenceFinished finalReps]
      else []
    ({s2 with errorReason := ""}, hvStep.2 ++ evTerm)

/-- Embeds SequenceManager._abort_sequence (lines 244-257): no-op when not
running; otherwise record the reason, emit `sequence_aborted`, request a DP5
stop when it is still acquiring, and finalize. -/
def abort_sequence (reason : String) (hvOffRaises : Bool) (s : SeqState) :
    SeqState × List SeqEvent :=
  if ¬ s.running then (s, [])
  else
    let s1 := {s with errorReason := reason}
    let ev1 := [SeqEvent.statusUpdate "Sequence ABORTED.",
                SeqEvent.sequenceAborted reason]
    let ev2 := if s1.dp5Present ∧ s1.dp5Acquiring then [SeqEvent.dp5StopRequested] else []
    let r := finalize hvOffRaises s1
    (r.1, ev1 ++ ev2 ++ r.2)

/-- Embeds SequenceManager.start_sequence (lines 44-98).  Validation errors
emit `sequence_aborted`, but the method does not return: it proceeds to set
`_running = True`, emit `sequence_started`, request continuous HV-on when
asked, schedule the first step and return True, exactly as the source does.
`folderIsDir` is the outcome of os.path.isdir; `hvGranted` tells whether the
UI-mediated HV-on request succeeds. -/
def start_sequence (reps : Int) (duration : Rat) (cont : Bool) (folder : String)
    (folderIsDir : Bool) (hvGranted : Bool) (s : SeqState) :
    Bool × SeqState × List SeqEvent :=
  if s.running then (false, s, [.statusUpdate "Sequence already running."])
  else
    let err : Option String :=
      if ¬ minixConnected s then some "MiniX not connected."
      else if ¬ (s.dp5Present ∧ s.dp5Connected) then some "DP5 not connected."
      else if s.dp5Acquiring then some "DP5 is already acquiring."
      else if reps ≤ 0 then some "Invalid repetitions value."
      else if duration ≤ 0 then some "Invalid duration value."
      else if folder = "" ∨ ¬ folderIsDir then some "Invalid or non-existent save folder."
      else none
    let evErr :=
      match err with
      | some e => [SeqEvent.statusUpdate "Sequence Error.", SeqEvent.sequenceAborted e]
      | none => []
    let s1 := {s with running := true, errorReason := "", currentRep := 0,
                      totalReps := reps, duration := duration,
                      minixContinuous := cont, saveFolder := folder}
    let hvStep :=
      if cont then (grantSafeHvOn hvGranted s1, [SeqEvent.requestSafeHvOn])
      else (s1, [])
    (true, hvStep.1,
     evErr ++ [SeqEvent.statusUpdate "Starting sequence.", SeqEvent.sequenceStarted]
           ++ hvStep.2)

/-- One repetition body, from the point in _run_next_step after the
repetition counter was advanced and found in range, through the DP5
acquisition of this repetition completing and
_handle_dp5_acq_state_change(False) running the save / HV-off / pause logic
(lines 127-211).  Returns the state, the emitted events, and whether the
repetition aborted the sequence (in which case _abort_sequence already
finalized). -/
def doRep (e : RepEnv) (s : SeqState) : SeqState × List SeqEvent × Bool :=
  let ev0 := [SeqEvent.statusUpdate "Running Rep.",
              SeqEvent.stepStarting s.currentRep s.totalReps]
  let hvOn :=
    if ¬ s.minixContinuous then (grantSafeHvOn e.hvOnGranted s, [SeqEvent.requestSafeHvOn])
    else (s, [])
  let s2 := {hvOn.1 with dp5Connected := e.dp5ConnectedAtStart}
  if ¬ s2.dp5Present then
    let r := abort_sequence "DP5 Controller missing." e.hvOffRaises s2
    (r.1, ev0 ++ hvOn.2 ++ r.2, true)
  else if ¬ s2.dp5Connected then
    let r := abort_sequence "DP5 disconnected before starting repetition." e.hvOffRaises s2
    (r.1, ev0 ++ hvOn.2 ++ r.2, true)
  else if e.startAcquisitionRaises then
    let r := abort_sequence "Error starting Rep." e.hvOffRaises s2
    (r.1, ev0 ++ hvOn.2 ++ r.2, true)
  else
    let s3 := {s2 with dp5Acquiring := false}
    let ev2 := [SeqEvent.stepFinished s3.currentRep s3.totalReps]
    if ¬ (s3.saveFolder ≠ "" ∧ e.folderOkAtSave) then
      let r := abort_sequence "Error saving spectrum: save folder invalid." e.hvOffRaises s3
      (r.1, ev0 ++ hvOn.2 ++ ev2 ++ r.2, true)
    else if e.saveCallRaises then
      let r := abort_sequence "Error saving spectrum: exception." e.hvOffRaises s3
      (r.1, ev0 ++ hvOn.2 ++ ev2 ++ [SeqEvent.statusUpdate "Saving Rep spectrum."] ++ r.2, true)
    else if ¬ truthy e.saveResult then
      let r := abort_sequence "Error saving spectrum: controller reported failure." e.hvOffRaises s3
      (r.1, ev0 ++ hvOn.2 ++ ev2 ++ [SeqEvent.statusUpdate "Saving Rep spectrum."] ++ r.2, true)
    else
      let ev5 := [SeqEvent.statusUpdate "Saving Rep spectrum.",
                  SeqEvent.statusUpdate "Rep spectrum saved."]
      let hvOff : Option MiniXState × List SeqEvent :=
        if ¬ s3.minixContinuous then
          match s3.minix with
          | some m =>
            let r := MiniXController.set_hv_off e.hvOffRaises m
            (some r.1, r.2)
          | none => (none, [])
        else (s3.minix, [])
      let s5 := {s3 with minix := hvOff.1}
      let ev7 := if s5.currentRep < s5.totalReps then [SeqEvent.pausing s5.pauseMs] else []
      (s5, ev0 ++ hvOn.2 ++ ev2 ++ ev5 ++ hvOff.2 ++ ev7, false)

/-- The entry checks of _run_next_step (lines 109-125): finalize when no
longer running or when an error is recorded, advance the repetition counter,
finalize when all repetitions are done, otherwise hand the advanced state to
the repetition body. -/
def preStep (finRaises : Bool) (s : SeqState) : (SeqState × List SeqEvent) ⊕ SeqState :=
  if ¬ s.running then .inl (finalize finRaises s)
  else if s.errorReason ≠ "" then .inl (finalize finRaises s)
  else
    let s1 := {s with currentRep := s.currentRep + 1}
    if s1.currentRep > s1.totalReps then .inl (finalize finRaises s1)
    else .inr s1

/-- The timer-driven run of the sequence from a started state: each list
element supplies the environment of one repetition, consumed in order.  A
user stop_sequence call arriving during the pause before a repetition aborts
the run (the pending timer callback then finds the manager idle and
finalizes as a no-op).  Returns none when the environment list is exhausted
while the run still wants another repetition (the execution has not
terminated yet). -/
def runSteps (finRaises : Bool) : List RepEnv → SeqState → Option (SeqState × List SeqEvent)
  | [], s =>
    match preStep finRaises s with
    | .inl r => some r
    | .inr _ => none
  | e :: rest, s =>
    if e.userStop then some (abort_sequence "User aborted" e.hvOffRaises s)
    else
      match preStep finRaises s with
      | .inl r => some r
      | .inr s1 =>
        let r := doRep e s1
        if r.2.2 then some (r.1, r.2.1)
        else
          match runSteps finRaises rest r.1 with
          | none => none
          | some r2 => some (r2.1, r.2.1 ++ r2.2)

/-- HV-on state of the source as seen from the sequence layer: no source
controller means no source to hold HV on. -/
def sourceHvOn : Option MiniXState → Bool
  | none => false
  | some m => m.hvFlag

/-- A repetition in which every step succeeds: no user stop, the DP5 is
still connected, start_acquisition does not raise, the save folder still
exists, and save_last_spectrum returns a truthy value without raising. -/
def NormalRep (e : RepEnv) : Prop :=
  e.userStop = false ∧ e.dp5ConnectedAtStart = true ∧ e.startAcquisitionRaises = false
    ∧ e.folderOkAtSave = true ∧ e.saveCallRaises = false ∧ truthy e.saveResult = true

/-- A repetition that aborts the sequence: the DP5 disconnected, starting
raised, the save folder disappeared, or the save raised or reported
failure. -/
def RepFails (e : RepEnv) : Prop :=
  e.dp5ConnectedAtStart = false ∨ e.startAcquisitionRaises = true
    ∨ e.folderOkAtSave = false ∨ e.saveCallRaises = true ∨ truthy e.saveResult = false

end SequenceManager

/-! ## Base controller setters (controllers/base_controller.py) and the other
edge-triggered setters built on the same pattern. -/

namespace BaseController

/-- Embeds BaseController._set_connected (lines 45-52): store and emit
`connection_changed` only when the stored boolean actually changes.  Returns
the new stored value and the list of emissions (each emission carries the
value emitted). -/
def set_connected (cur new : Bool) : Bool × List Bool :=
  if cur ≠ new then (new, [new]) else (cur, [])

end BaseController

namespace DP5ControllerSetters

/-- Embeds DP5Controller._set_acquiring (dp5_controller.py lines 198-201):
store and emit `acquisition_state_changed` only on an actual change. -/
def set_acquiring (cur new : Bool) : Bool × List Bool :=
  if cur ≠ new then (new, [new]) else (cur, [])

end DP5ControllerSetters

namespace MiniXControllerSetters

/-- Embeds MiniXController._set_hv_on (minix_controller.py lines 297-303):
coerce the argument with bool(), then store and emit `hv_state_changed` only
on an actual change.  The argument is already a boolean in the model, so the
coercion is the identity. -/
def set_hv_on (cur new : Bool) : Bool × List Bool :=
  if cur ≠ new then (new, [new]) else (cur, [])

end MiniXControllerSetters

/-! ## Single-acquisition manager (logic/single_acquistion_manager.py) -/

inductive SAEvent where
  | statusUpdate (msg : String)
  | acquisitionStarted
  | acquisitionFinished (ok : Bool)
  | acquisitionAborted (reason : String)
  | dp5StopRequested
  deriving DecidableEq, Repr

def isSAFinished : SAEvent → Bool
  | .acquisitionFinished _ => true
  | _ => false

def isSAAborted : SAEvent → Bool
  | .acquisitionAborted _ => true
  | _ => false

structure SAState where
  running : Bool
  errorReason : String
  savedOk : Bool
  dp5Present : Bool
  dp5Acquiring : Bool
  deriving DecidableEq, Repr

namespace SingleAcquisitionManager

/-- Embeds SingleAcquisitionManager._finalize (lines 153-181): early return
when not running; otherwise remember `was_running` (necessarily True here,
because of the early return), clear the running flag, then emit the terminal
signals: on an error, `acquisition_aborted` again whenever `was_running`
followed by `acquisition_finished(False)`; on success
`acquisition_finished(True)`; on a save failure without a recorded reason,
`acquisition_aborted` then `acquisition_finished(False)`.  Error reason and
save flag are cleared for reuse. -/
def finalize (s : SAState) : SAState × List SAEvent :=
  if ¬ s.running then (s, [])
  else
    let wasRunning := s.running
    let s1 := {s with running := false}
    let ev :=
      if s1.errorReason ≠ "" then
        (if wasRunning then
           [SAEvent.acquisitionAborted s1.errorReason,
            SAEvent.statusUpdate "Acquisition FAILED."]
         else []) ++ [SAEvent.acquisitionFinished false]
      else if wasRunning ∧ s1.savedOk then
        [SAEvent.statusUpdate "Acquisition and save completed successfully.",
         SAEvent.acquisitionFinished true]
      else if wasRunning ∧ ¬ s1.savedOk then
        [SAEvent.statusUpdate "Acquisition completed, but save FAILED.",
         SAEvent.acquisitionAborted "Spectrum save failed.",
         SAEvent.acquisitionFinished false]
      else []
    ({s1 with errorReason := "", savedOk := false}, ev)

/-- Embeds SingleAcquisitionManager._abort_acquisition (lines 184-205):
no-op when not running; otherwise record the reason and emit
`acquisition_aborted`.  When the DP5 is acquiring, request a stop;
`stopSync` tells whether the stop takes effect synchronously (the
worker-missing defensive path of DP5Controller.stop_acquisition); when the
DP5 is then no longer acquiring — in particular when it never was — call
_finalize, which emits `acquisition_aborted` a second time because its
`was_running` guard is true on every non-early-returning call. -/
def abort_acquisition (reason : String) (stopSync : Bool) (s : SAState) :
    SAState × List SAEvent :=
  if ¬ s.running then (s, [])
  else
    let s1 := {s with errorReason := reason}
    let ev1 := [SAEvent.statusUpdate "Acquisition ABORTED.",
                SAEvent.acquisitionAborted reason]
    if s1.dp5Present ∧ s1.dp5Acquiring then
      let s2 := if stopSync then {s1 with dp5Acquiring := false} else s1
      let ev2 := [SAEvent.dp5StopRequested]
      if ¬ s2.dp5Acquiring then
        let r := finalize s2
        (r.1, ev1 ++ ev2 ++ r.2)
      else
        (s2, ev1 ++ ev2)
    else
      let r := finalize s1
      (r.1, ev1 ++ r.2)

/-- Embeds SingleAcquisitionManager.stop_acquisition (lines 94-100). -/
def stop_acquisition (reason : String) (stopSync : Bool) (s : SAState) :
    SAState × List SAEvent :=
  if s.running then abort_acquisition reason stopSync s else (s, [])

/-- Embeds the completion branch of _handle_dp5_acq_state_change together
with _save_spectrum (lines 102-151): when the manager is running with no
recorded error and the DP5 just stopped, attempt the save (whose outcome —
missing path, missing controller, exception, controller-reported failure, or
success — is given by the environment), store the outcome and finalize. -/
def handle_acq_finished (filepathSet : Bool) (saveCallRaises : Bool)
    (saveResult : Option Bool) (s : SAState) : SAState × List SAEvent :=
  if s.running ∧ s.errorReason = "" then
    let s0 := {s with dp5Acquiring := false}
    let save :
        SAState × List SAEvent × Bool :=
      if ¬ filepathSet then
        ({s0 with errorReason := "Save filepath not set before trying to save."},
         [SAEvent.statusUpdate "Save Error."], false)
      else if ¬ s0.dp5Present then
        ({s0 with errorReason := "DP5 Controller missing for saving."},
         [SAEvent.statusUpdate "Save Error."], false)
      else if saveCallRaises then
        ({s0 with errorReason := "Exception during spectrum save."},
         [SAEvent.statusUpdate "Save Error."], false)
      else if ¬ truthy saveResult then
        ({s0 with errorReason := "DP5 controller reported failure saving spectrum."},
         [SAEvent.statusUpdate "Save Failed."], false)
      else
        (s0, [SAEvent.statusUpdate "Spectrum saved."], true)
    let s1 := {save.1 with savedOk := save.2.2}
    let r := finalize s1
    (r.1, [SAEvent.statusUpdate "DP5 acquisition finished. Attempting to save spectrum..."]
            ++ save.2.1 ++ r.2)
  else
    ({s with dp5Acquiring := false}, [])

end SingleAcquisitionManager

/-! ## DP5 controller (controllers/dp5_controller.py) -/

inductive CEvent where
  | errorOccurred (msg : String)
  | statusMessage (msg : String)
  | acquisitionStateChanged (b : Bool)
  deriving DecidableEq, Repr

/-- Controller-side session state.  `threadAlive` is
`self._thread and self._thread.isRunning()`; `threadRef` / `workerRef` track
whether the references are set; `lastSpectrum` is the cached numpy array of
the most recent worker publication, reduced to its channel count (the
claims only need presence and length). -/
structure DP5State where
  apiLoaded : Bool
  workerClassLoaded : Bool
  saveFuncAvail : Bool
  connected : Bool
  acquiring : Bool
  threadAlive : Bool
  threadRef : Bool
  workerRef : Bool
  lastSpectrum : Option Nat
  lastStatusCached : Bool
  deriving DecidableEq, Repr

namespace DP5Controller

def MAX_BUFFER_DATA : Nat := 8192

/-- The _set_acquiring edge-triggered setter applied inside controller
methods. -/
def setAcq (b : Bool) (s : DP5State) : DP5State × List CEvent :=
  if s.acquiring ≠ b then ({s with acquiring := b}, [.acquisitionStateChanged b])
  else (s, [])

def clearRefs (s : DP5State) : DP5State :=
  {s with threadRef := false, workerRef := false}

/-- Embeds DP5Controller.start_acquisition (lines 91-118).  `presetPos`
tells whether a positive preset time was passed, `waitOk` whether a stale
previous thread stops within the bounded wait, `threadStartRaises` whether
spawning the thread raises.  Returns the new state, the emissions, and
whether a new worker/thread pair was spawned. -/
def start_acquisition (presetPos waitOk threadStartRaises : Bool) (s : DP5State) :
    DP5State × List CEvent × Bool :=
  if ¬ s.apiLoaded then (s, [.errorOccurred "DP5 API not loaded."], false)
  else if ¬ s.workerClassLoaded then (s, [.errorOccurred "DP5 Worker class not found."], false)
  else if ¬ s.connected then (s, [.errorOccurred "Connect DP5 first."], false)
  else if s.acquiring then (s, [.statusMessage "DP5 acq already running."], false)
  else
    let pre : Option (DP5State × List CEvent) :=
      if s.threadAlive then
        if ¬ waitOk then some (clearRefs s, [.errorOccurred "Could not stop previous thread."])
        else none
      else none
    match pre with
    | some r => (r.1, r.2, false)
    | none =>
      let s0 :=
        if s.threadAlive then {s with threadAlive := false}
        else if s.threadRef ∨ s.workerRef then clearRefs s
        else s
      let ev0 := [CEvent.statusMessage "Starting DP5 acquisition..."]
                   ++ (if presetPos then [CEvent.statusMessage "Preset Time set."] else [])
      let acq := setAcq true s0
      if threadStartRaises then
        let acq2 := setAcq false acq.1
        (clearRefs acq2.1,
         ev0 ++ acq.2 ++ [.errorOccurred "Failed start DP5 acq thread."] ++ acq2.2,
         false)
      else
        ({acq.1 with threadRef := true, workerRef := true, threadAlive := true},
         ev0 ++ acq.2, true)

inductive SaveCallOutcome where
  | ok
  | raisesOverflow
  | raisesOther
  deriving DecidableEq, Repr

/-- Embeds DP5Controller.save_last_spectrum (lines 139-195).  The Python
return value is modelled as an Option Bool: the guard paths execute
`return self._report_error(...)`, and _report_error returns None, so those
paths return none; the exception handlers return some false; success
returns some true.  `SaveCallOutcome` tells whether populating the file
record or calling SaveMCADataToFile raises (both caught).  The last
component records whether a file was written. -/
def save_last_spectrum (s : DP5State) (call : SaveCallOutcome) :
    Option Bool × List CEvent × Bool :=
  if ¬ (s.apiLoaded ∧ s.saveFuncAvail) then
    (none, [.errorOccurred "Spectrum saving function (SaveMCADataToFile) not available in API."],
     false)
  else
    match s.lastSpectrum with
    | none =>
      (none, [.errorOccurred "No spectrum data acquired or cached yet to save."], false)
    | some n =>
      let ev0 := [CEvent.statusMessage "Saving spectrum..."]
      if n > MAX_BUFFER_DATA then
        (none, ev0 ++ [.errorOccurred "Spectrum data length exceeds max buffer size."], false)
      else
        match call with
        | .ok => (some true, ev0 ++ [.statusMessage "Spectrum saved."], true)
        | .raisesOverflow =>
          (some false, ev0 ++ [.errorOccurred "Error populating file info (string too long?)."],
           false)
        | .raisesOther =>
          (some false, ev0 ++ [.errorOccurred "Error saving spectrum file."], false)

end DP5Controller

/-! ## Acquisition worker (workers/dp5_worker.py) -/

inductive WEvent where
  | statusReady
  | spectrumReady
  | message (msg : String)
  | errorEv (msg : String)
  | finishedEv
  deriving DecidableEq, Repr

def isWFinished : WEvent → Bool
  | .finishedEv => true
  | _ => false

def isWSpectrum : WEvent → Bool
  | .spectrumReady => true
  | _ => false

def isWStatus : WEvent → Bool
  | .statusReady => true
  | _ => false

/-- Worker object state: the liveness flag, whether the ctypes buffers were
allocated in __init__, and the run parameters. -/
structure Worker where
  running : Bool
  buffersAllocated : Bool
  configPath : Option String
  presetTime : Option Rat
  deriving DecidableEq, Repr

namespace DP5Worker

/-- The `self._preset_time is not None and self._preset_time > 0` test that
selects a finite PRET command. -/
def presetPos (w : Worker) : Bool :=
  match w.presetTime with
  | some t => decide (0 < t)
  | none => false

/-- Outcome of the per-iteration status fetch (GetDppStatus +
DppStatusToStruct): a snapshot with the given raw byte 35, an
AttributeError (fatal to the loop), or another exception (recoverable). -/
inductive FetchRes where
  | ok (raw35 : Nat)
  | attrErr
  | exc
  deriving DecidableEq, Repr

/-- Outcome of a RequestSpectrumData call: a buffer with the given CHANNELS
value, an AttributeError, or another exception. -/
inductive SpecRes where
  | ok (channels : Int)
  | attrErr
  | exc
  deriving DecidableEq, Repr

/-- Environment of one poll-loop iteration.  `stopRequested` means a stop()
call landed before this iteration's while-condition check. -/
structure IterEnv where
  stopRequested : Bool
  status : FetchRes
  spec : SpecRes
  deriving DecidableEq, Repr

inductive CfgRes where
  | ok1
  | okFail
  | exc
  deriving DecidableEq, Repr

inductive CmdRes where
  | okTrue
  | okFalse
  | exc
  deriving DecidableEq, Repr

/-- Environment of one whole run: module/API availability, outcomes of the
setup calls, the iteration environments, and the teardown outcomes. -/
structure WorkerEnv where
  apiLoaded : Bool
  configExists : Bool
  sendConfigAvail : Bool
  sendConfig : CfgRes
  asciiAvail : Bool
  pretSend : CmdRes
  enableMcaAvail : Bool
  enableMcaRaises : Bool
  statusFuncsOk : Bool
  spectrumFuncOk : Bool
  iters : List IterEnv
  cleanupStatusRaises : Bool
  cleanupMcaBit : Bool
  disableMcaAvail : Bool
  disableMcaRaises : Bool
  deriving DecidableEq, Repr

/-- Embeds the acquisition loop (dp5_worker.py lines 152-196): while the
liveness flag holds, fetch and publish a status snapshot, inspect bit 5 of
raw byte 35, and either fetch-and-publish one final spectrum and exit, or
publish the current spectrum and continue.  AttributeErrors break the loop;
other exceptions are published and the loop continues.  Returns none when
the iteration environments run out while the loop still wants to continue
(the execution has not terminated). -/
def pollLoop : List IterEnv → Worker → Option (Worker × List WEvent)
  | [], w => if w.running then none else some (w, [])
  | it :: rest, w =>
    if ¬ w.running then some (w, [])
    else if it.stopRequested then some ({w with running := false}, [])
    else
      match it.status with
      | .attrErr =>
        some ({w with running := false}, [.errorEv "API attribute error during loop."])
      | .exc =>
        match pollLoop rest w with
        | none => none
        | some r => some (r.1, WEvent.errorEv "Error during acquisition loop." :: r.2)
      | .ok raw35 =>
        if (raw35 >>> 5) &&& 1 = 0 then
          let evFinal :=
            match it.spec with
            | .ok ch => if 0 < ch ∧ ch ≤ 8192 then [WEvent.spectrumReady] else []
            | .attrErr => [WEvent.errorEv "Error getting final spectrum."]
            | .exc => [WEvent.errorEv "Error getting final spectrum."]
          some ({w with running := false},
                [WEvent.statusReady,
                 WEvent.message "MCA Disabled flag detected. Acquisition finished."] ++ evFinal)
        else
          match it.spec with
          | .ok ch =>
            let evSpec := if 0 < ch ∧ ch ≤ 8192 then [WEvent.spectrumReady] else []
            match pollLoop rest w with
            | none => none
            | some r => some (r.1, WEvent.statusReady :: (evSpec ++ r.2))
          | .attrErr =>
            some ({w with running := false},
                  [WEvent.statusReady, WEvent.errorEv "API attribute error during loop."])
          | .exc =>
            match pollLoop rest w with
            | none => none
            | some r =>
              some (r.1, WEvent.statusReady
                          :: (WEvent.errorEv "Error during acquisition loop." :: r.2))

/-- Step 1 of run: send the configuration file if one was given (lines
74-90).  Returns config_ok and the emissions. -/
def cfgStep (env : WorkerEnv) (w : Worker) : Bool × List WEvent :=
  if w.configPath.isSome then
    if ¬ env.configExists then
      (false, [.message "Sending config.", .errorEv "Config file not found."])
    else if ¬ env.sendConfigAvail then
      (false, [.message "Sending config.",
               .errorEv "SendConfigFileToDpp function not available in API."])
    else
      match env.sendConfig with
      | .ok1 => (true, [.message "Sending config.", .message "Config sent."])
      | .okFail => (false, [.message "Sending config.", .errorEv "Failed send config (API Error)."])
      | .exc => (false, [.message "Sending config.", .errorEv "Error sending config."])
  else (true, [.message "No config file specified."])

/-- Step 2 of run: send the PRET command (lines 92-122).  A failed finite
preset is fatal to setup; a failed PRET=OFF is tolerated. -/
def pretStep (env : WorkerEnv) (w : Worker) (configOk : Bool) : Bool × List WEvent :=
  if configOk then
    if ¬ env.asciiAvail then
      (false, [.errorEv "send_ascii_command helper not available in API module."])
    else
      match env.pretSend with
      | .exc => (false, [.message "Sending Preset Command.",
                         .errorEv "Exception sending PRET command."])
      | .okFalse =>
        (if presetPos w then false else true,
         [.message "Sending Preset Command.", .errorEv "Failed send command."])
      | .okTrue => (true, [.message "Sending Preset Command.", .message "Preset command sent."])
  else (configOk, [])

/-- Step 3 of run: enable the MCA when setup succeeded (lines 124-140). -/
def mcaStep (env : WorkerEnv) (configOk : Bool) : Bool × List WEvent :=
  if configOk then
    if ¬ env.enableMcaAvail then (false, [.errorEv "EnableMCA function not available in API."])
    else if env.enableMcaRaises then
      (false, [.message "Enabling MCA...", .errorEv "Error enabling MCA."])
    else (true, [.message "Enabling MCA...", .message "Acquisition Running..."])
  else (false, [.message "Skipping MCA enable due to previous setup failure."])

/-- The pre-loop availability check of the loop functions (lines 142-149). -/
def chkStep (env : WorkerEnv) (acqStarted : Bool) : Bool × List WEvent :=
  if ¬ (env.statusFuncsOk && env.spectrumFuncOk) then
    (false, [.errorEv "Required API functions for acquisition loop missing."])
  else (acqStarted, [])

/-- The teardown of the finally block (lines 201-220): when acquisition was
armed and DisableMCA is available, query one last status (failures leave the
flag assumed set) and disable the analyzer if the flag is still set. -/
def cleanupStep (env : WorkerEnv) (acqStarted : Bool) : List WEvent :=
  if acqStarted && env.apiLoaded && env.disableMcaAvail then
    let mcaBit :=
      if env.statusFuncsOk && !env.cleanupStatusRaises then env.cleanupMcaBit else true
    if mcaBit then
      if env.disableMcaRaises then
        [.message "Disabling MCA...", .errorEv "Error disabling MCA on exit."]
      else [.message "Disabling MCA...", .message "MCA Disabled."]
    else []
  else []

/-- Embeds DP5AcquisitionWorker.run (lines 55-226): the two short-circuit
checks, the liveness flag set, the setup steps, the poll loop, and the
finally block that tears down and emits `finished` unconditionally.  Returns
none when the loop does not terminate within the supplied iteration
environments. -/
def run (env : WorkerEnv) (w : Worker) : Option (Worker × List WEvent) :=
  if ¬ env.apiLoaded then
    some (w, [.errorEv "DP5 API not loaded. Cannot start worker.", .finishedEv])
  else if ¬ w.buffersAllocated then
    some (w, [.errorEv "DP5 API buffers not allocated. Cannot start worker.", .finishedEv])
  else
    let w1 := {w with running := true}
    let cfg := cfgStep env w1
    let pret := pretStep env w1 cfg.1
    let mca := mcaStep env pret.1
    let chk := chkStep env mca.1
    let looped : Option (Worker × List WEvent) :=
      if chk.1 then pollLoop env.iters w1 else some (w1, [])
    match looped with
    | none => none
    | some r =>
      some ({r.1 with running := false},
            cfg.2 ++ pret.2 ++ mca.2 ++ chk.2 ++ r.2
              ++ cleanupStep env chk.1 ++ [WEvent.finishedEv])

/-- Embeds DP5AcquisitionWorker.stop (lines 228-233): emit a message when
the loop was live, then clear the liveness flag. -/
def stop (w : Worker) : Worker × List WEvent :=
  ({w with running := false}, if w.running then [.message "Stop requested."] else [])

end DP5Worker

/-! ## Concrete states used by witnesses and counterexamples -/

/-- A connected, idle MiniX controller with HV currently on. -/
def minixHvOn : MiniXState :=
  { apiLoaded := true, appRunning := true, connected := true, hvFlag := true }

/-- A connected, idle MiniX controller with HV off. -/
def minixIdle : MiniXState :=
  { apiLoaded := true, appRunning := true, connected := true, hvFlag := false }

/-- An idle sequence manager with both controllers connected. -/
def seqIdle : SeqState :=
  { running := false, errorReason := "", currentRep := 0, totalReps := 0,
    duration := 1, minixContinuous := false, saveFolder := "", pauseMs := 5000,
    minix := some minixIdle, dp5Present := true, dp5Connected := true,
    dp5Acquiring := false }

/-- A running continuous-mode sequence at repetition 0 of 1 with HV on. -/
def seqContinuousRunning : SeqState :=
  { running := true, errorReason := "", currentRep := 0, totalReps := 1,
    duration := 5, minixContinuous := true, saveFolder := "data", pauseMs := 5000,
    minix := some minixHvOn, dp5Present := true, dp5Connected := true,
    dp5Acquiring := false }

/-- A running sequence at repetition 0 of 3, non-continuous mode. -/
def seqThreeReps : SeqState :=
  { running := true, errorReason := "", currentRep := 0, totalReps := 3,
    duration := 5, minixContinuous := false, saveFolder := "data", pauseMs := 5000,
    minix := some minixIdle, dp5Present := true, dp5Connected := true,
    dp5Acquiring := false }

/-- A repetition whose every step succeeds. -/
def repOk : RepEnv :=
  { userStop := false, hvOnGranted := true, dp5ConnectedAtStart := true,
    startAcquisitionRaises := false, folderOkAtSave := true,
    saveCallRaises := false, saveResult := some true, hvOffRaises := false }

/-- A repetition whose save fails (the controller reports failure). -/
def repSaveFails : RepEnv :=
  { repOk with saveResult := some false }

/-- A running single-acquisition manager, DP5 currently idle. -/
def saRunning : SAState :=
  { running := true, errorReason := "", savedOk := false,
    dp5Present := true, dp5Acquiring := false }

/-- A DP5 controller session that is connected and acquiring. -/
def dp5Acquiring : DP5State :=
  { apiLoaded := true, workerClassLoaded := true, saveFuncAvail := true,
    connected := true, acquiring := true, threadAlive := true,
    threadRef := true, workerRef := true, lastSpectrum := some 1024,
    lastStatusCached := true }

/-- A connected DP5 controller with no cached spectrum. -/
def dp5NoSpectrum : DP5State :=
  { apiLoaded := true, workerClassLoaded := true, saveFuncAvail := true,
    connected := true, acquiring := false, threadAlive := false,
    threadRef := false, workerRef := false, lastSpectrum := none,
    lastStatusCached := false }

/-- A freshly constructed worker with allocated buffers and no config file. -/
def freshWorker : Worker :=
  { running := false, buffersAllocated := true, configPath := none, presetTime := none }

/-- A worker environment in which setup succeeds and the first status fetch
reports bit 5 of raw byte 35 clear, while the final spectrum fetch returns a
buffer with CHANNELS = 0. -/
def bitZeroEmptyEnv : DP5Worker.WorkerEnv :=
  { apiLoaded := true, configExists := true, sendConfigAvail := true, sendConfig := .ok1,
    asciiAvail := true, pretSend := .okTrue, enableMcaAvail := true, enableMcaRaises := false,
    statusFuncsOk := true, spectrumFuncOk := true,
    iters := [{ stopRequested := false, status := .ok 0, spec := .ok 0 }],
    cleanupStatusRaises := false, cleanupMcaBit := false,
    disableMcaAvail := true, disableMcaRaises := false }

/-! ## Claim theorems -/

/-- C9: the three boolean state-change setters are edge-triggered: each
emits exactly when the stored boolean changes, and every emitted value is
the new value, different from the previous one. -/
theorem boolean_setters_edge_triggered (cur new : Bool) :
    ((BaseController.set_connected cur new).2 ≠ [] ↔ new ≠ cur)
    ∧ (∀ v ∈ (BaseController.set_connected cur new).2, v = new ∧ v ≠ cur)
    ∧ ((DP5ControllerSetters.set_acquiring cur new).2 ≠ [] ↔ new ≠ cur)
    ∧ (∀ v ∈ (DP5ControllerSetters.set_acquiring cur new).2, v = new ∧ v ≠ cur)
    ∧ ((MiniXControllerSetters.set_hv_on cur new).2 ≠ [] ↔ new ≠ cur)
    ∧ (∀ v ∈ (MiniXControllerSetters.set_hv_on cur new).2, v = new ∧ v ≠ cur) := by
  revert cur new
  decide

/-- C7: while the controller reports acquiring, a further start_acquisition
call leaves the session state unchanged (in particular spawns no second
worker/thread pair) and reports that no spawn happened. -/
theorem start_acquisition_rejected_while_acquiring
    (presetPos waitOk threadStartRaises : Bool) (s : DP5State)
    (h : s.acquiring = true) :
    (DP5Controller.start_acquisition presetPos waitOk threadStartRaises s).1 = s
    ∧ (DP5Controller.start_acquisition presetPos waitOk threadStartRaises s).2.2 = false := by
  unfold DP5Controller.start_acquisition
  by_cases h1 : s.apiLoaded <;> by_cases h2 : s.workerClassLoaded
    <;> by_cases h3 : s.connected <;> simp [h1, h2, h3, h]

/-- C7 witness: the rejection at a concrete acquiring session. -/
theorem start_acquisition_rejected_witness :
    (DP5Controller.start_acquisition false true false dp5Acquiring).1 = dp5Acquiring
    ∧ (DP5Controller.start_acquisition false true false dp5Acquiring).2.2 = false :=
  start_acquisition_rejected_while_acquiring false true false dp5Acquiring rfl

/-- C8 counterexample: with no cached spectrum, save_last_spectrum returns
None (the value of `return self._report_error(...)`), not False as the
claim states. -/
theorem save_returns_none_not_false :
    (DP5Controller.save_last_spectrum dp5NoSpectrum .ok).1 = none
    ∧ (DP5Controller.save_last_spectrum dp5NoSpectrum .ok).1 ≠ some false := by
  decide

/-- C8 (amended): with no cached spectrum, save_last_spectrum returns None
— a falsy value — emits exactly one error naming the missing spectrum,
writes no file, and raises nothing; and on every path a file is written
exactly when the call returns True. -/
theorem save_no_spectrum_behaviour (s : DP5State) (call : DP5Controller.SaveCallOutcome)
    (havail : s.apiLoaded = true ∧ s.saveFuncAvail = true)
    (hnone : s.lastSpectrum = none) :
    DP5Controller.save_last_spectrum s call =
      (none, [.errorOccurred "No spectrum data acquired or cached yet to save."], false)
    ∧ truthy (DP5Controller.save_last_spectrum s call).1 = false
    ∧ (∀ s2 c2, (DP5Controller.save_last_spectrum s2 c2).2.2 = true
          ↔ (DP5Controller.save_last_spectrum s2 c2).1 = some true) := by
  obtain ⟨ha, hf⟩ := havail
  refine ⟨?_, ?_, ?_⟩
  · unfold DP5Controller.save_last_spectrum
    simp [ha, hf, hnone]
  · unfold DP5Controller.save_last_spectrum
    simp [ha, hf, hnone, truthy]
  · intro s2 c2
    unfold DP5Controller.save_last_spectrum
    by_cases h1 : s2.apiLoaded ∧ s2.saveFuncAvail
    · rcases hs : s2.lastSpectrum with _ | n
      · simp [h1, hs]
      · by_cases h2 : n > DP5Controller.MAX_BUFFER_DATA
        · simp [h1, hs, h2]
        · cases c2 <;> simp [h1, hs, h2]
    · simp [h1]

/-- C8 witness for the amended theorem: the concrete no-spectrum call. -/
theorem save_no_spectrum_witness :
    DP5Controller.save_last_spectrum dp5NoSpectrum .ok =
      (none, [.errorOccurred "No spectrum data acquired or cached yet to save."], false)
    ∧ truthy (DP5Controller.save_last_spectrum dp5NoSpectrum .ok).1 = false :=
  ⟨(save_no_spectrum_behaviour dp5NoSpectrum .ok ⟨rfl, rfl⟩ rfl).1,
   (save_no_spectrum_behaviour dp5NoSpectrum .ok ⟨rfl, rfl⟩ rfl).2.1⟩

/-- C10: a stop() call landing before run starts has no effect on the run:
the events and termination of run are identical after a prior stop, and from
any worker whose liveness flag is clear (as a fresh worker's is) the whole
outcome is identical. -/
theorem stop_then_run_same_as_run (env : DP5Worker.WorkerEnv) (w : Worker) :
    (DP5Worker.run env (DP5Worker.stop w).1).map Prod.snd
        = (DP5Worker.run env w).map Prod.snd
    ∧ (w.running = false → DP5Worker.run env (DP5Worker.stop w).1 = DP5Worker.run env w) := by
  constructor
  · show (DP5Worker.run env {w with running := false}).map Prod.snd = _
    unfold DP5Worker.run
    by_cases h1 : env.apiLoaded
    · by_cases h2 : w.buffersAllocated <;> simp [h1, h2]
    · simp [h1]
  · intro hr
    have hs : (DP5Worker.stop w).1 = w := by
      cases w
      simp only at hr
      simp [DP5Worker.stop, hr]
    rw [hs]

/-- C10 witness: stop-then-run equals run on a concrete fresh worker. -/
theorem stop_then_run_witness :
    DP5Worker.run bitZeroEmptyEnv (DP5Worker.stop freshWorker).1
      = DP5Worker.run bitZeroEmptyEnv freshWorker :=
  (stop_then_run_same_as_run bitZeroEmptyEnv freshWorker).2 rfl

/-- C5: the code contradicts the claim (and its own comment `Avoid double
emit if already aborted`): aborting a running manager while the DP5 is not
acquiring emits `acquisition_aborted` twice before `finished(False)`,
because _finalize re-emits it under a `was_running` guard that is always
true there; and aborting while the DP5 is still acquiring leaves the
manager running with no terminal `finished` at all, because the
acquisition-finished handler skips once an error reason is recorded. -/
theorem single_abort_terminal_events_wrong :
    ((SingleAcquisitionManager.stop_acquisition "User aborted" false saRunning).2.countP
        isSAAborted = 2
     ∧ (SingleAcquisitionManager.stop_acquisition "User aborted" false saRunning).2.countP
        isSAFinished = 1)
    ∧ ((SingleAcquisitionManager.stop_acquisition "User aborted" false
          {saRunning with dp5Acquiring := true}).2.countP isSAAborted = 1
       ∧ (SingleAcquisitionManager.stop_acquisition "User aborted" false
          {saRunning with dp5Acquiring := true}).2.countP isSAFinished = 0
       ∧ (SingleAcquisitionManager.stop_acquisition "User aborted" false
          {saRunning with dp5Acquiring := true}).1.running = true) := by
  decide

/-- Only the terminal event matches isWFinished. -/
theorem isWFinished_iff (e : WEvent) : isWFinished e = true ↔ e = WEvent.finishedEv := by
  cases e <;> simp [isWFinished]

/-- A list free of the terminal event has isWFinished-count zero. -/
theorem countP_finished_zero (l : List WEvent) (h : WEvent.finishedEv ∉ l) :
    l.countP isWFinished = 0 :=
  List.countP_eq_zero.mpr fun e he hf => h ((isWFinished_iff e).mp hf ▸ he)

/-- The poll loop never emits the terminal event: `finished` comes only
from the surrounding run. -/
theorem pollLoop_no_finished (its : List DP5Worker.IterEnv) :
    ∀ (w : Worker) r, DP5Worker.pollLoop its w = some r → WEvent.finishedEv ∉ r.2 := by
  induction its with
  | nil =>
    intro w r h
    unfold DP5Worker.pollLoop at h
    by_cases h1 : w.running <;> simp [h1] at h <;> subst h <;> simp
  | cons it rest ih =>
    intro w r h
    obtain ⟨stopq, status, spec⟩ := it
    unfold DP5Worker.pollLoop at h
    by_cases h1 : w.running
    · by_cases h2 : stopq
      · simp [h1, h2] at h
        subst h
        simp
      · rcases status with raw | _ | _
        · by_cases hbit : raw >>> 5 % 2 = 0
          · rcases spec with ch | _ | _
            · by_cases hch : 0 < ch ∧ ch ≤ 8192 <;>
                simp [h1, h2, hbit, hch] at h <;> subst h <;> simp
            · simp [h1, h2, hbit] at h
              subst h
              simp
            · simp [h1, h2, hbit] at h
              subst h
              simp
          · rcases spec with ch | _ | _
            · rcases hr : DP5Worker.pollLoop rest w with _ | r2
              · simp [h1, h2, hbit, hr] at h
              · simp [h1, h2, hbit, hr] at h
                have h0 := ih w r2 hr
                subst h
                by_cases hch : 0 < ch ∧ ch ≤ 8192 <;> simp [hch, h0]
            · simp [h1, h2, hbit] at h
              subst h
              simp
            · rcases hr : DP5Worker.pollLoop rest w with _ | r2
              · simp [h1, h2, hbit, hr] at h
              · simp [h1, h2, hbit, hr] at h
                have h0 := ih w r2 hr
                subst h
                simp [h0]
        · simp [h1, h2] at h
          subst h
          simp
        · rcases hr : DP5Worker.pollLoop rest w with _ | r2
          · simp [h1, h2, hr] at h
          · simp [h1, h2, hr] at h
            have h0 := ih w r2 hr
            subst h
            simp [h0]
    · simp [h1] at h
      subst h
      simp

/-- The configuration step emits no terminal event. -/
theorem cfgStep_no_finished (env : DP5Worker.WorkerEnv) (w : Worker) :
    ((DP5Worker.cfgStep env w).2).countP isWFinished = 0 := by
  unfold DP5Worker.cfgStep
  rcases env.sendConfig <;> by_cases h1 : w.configPath.isSome
    <;> by_cases h2 : env.configExists <;> by_cases h3 : env.sendConfigAvail
    <;> simp [h1, h2, h3, isWFinished]

/-- The preset step emits no terminal event. -/
theorem pretStep_no_finished (env : DP5Worker.WorkerEnv) (w : Worker) (c : Bool) :
    ((DP5Worker.pretStep env w c).2).countP isWFinished = 0 := by
  unfold DP5Worker.pretStep
  rcases env.pretSend <;> by_cases h1 : c <;> by_cases h2 : env.asciiAvail
    <;> simp [h1, h2, isWFinished]

/-- The MCA-enable step emits no terminal event. -/
theorem mcaStep_no_finished (env : DP5Worker.WorkerEnv) (c : Bool) :
    ((DP5Worker.mcaStep env c).2).countP isWFinished = 0 := by
  unfold DP5Worker.mcaStep
  by_cases h1 : c <;> by_cases h2 : env.enableMcaAvail
    <;> by_cases h3 : env.enableMcaRaises <;> simp [h1, h2, h3, isWFinished]

/-- The loop-function availability check emits no terminal event. -/
theorem chkStep_no_finished (env : DP5Worker.WorkerEnv) (c : Bool) :
    ((DP5Worker.chkStep env c).2).countP isWFinished = 0 := by
  unfold DP5Worker.chkStep
  split <;> simp [isWFinished]

/-- The teardown emits no terminal event. -/
theorem cleanupStep_no_finished (env : DP5Worker.WorkerEnv) (c : Bool) :
    (DP5Worker.cleanupStep env c).countP isWFinished = 0 := by
  apply countP_finished_zero
  unfold DP5Worker.cleanupStep
  repeat' split
  all_goals simp

/-- C3: every terminating execution of DP5AcquisitionWorker.run emits the
`finished` event exactly once, and the buffer-allocation-failure path
short-circuits with exactly one error followed by `finished` and nothing
else. -/
theorem worker_finished_exactly_once (env : DP5Worker.WorkerEnv) (w : Worker) :
    (∀ r, DP5Worker.run env w = some r → r.2.countP isWFinished = 1)
    ∧ (env.apiLoaded = true → w.buffersAllocated = false →
        DP5Worker.run env w =
          some (w, [.errorEv "DP5 API buffers not allocated. Cannot start worker.",
                    .finishedEv])) := by
  constructor
  · intro r h
    unfold DP5Worker.run at h
    by_cases h1 : env.apiLoaded
    · by_cases h2 : w.buffersAllocated
      · rw [if_neg (not_not_intro h1), if_neg (not_not_intro h2)] at h
        dsimp only at h
        by_cases hb : (DP5Worker.chkStep env
            (DP5Worker.mcaStep env
              (DP5Worker.pretStep env {w with running := true}
                (DP5Worker.cfgStep env {w with running := true}).1).1).1).1
        · rw [if_pos hb] at h
          rcases hp : DP5Worker.pollLoop env.iters {w with running := true} with _ | rl
          · rw [hp] at h
            exact absurd h (by simp)
          · rw [hp] at h
            simp only [Option.some.injEq] at h
            subst h
            have hl := countP_finished_zero rl.2 (pollLoop_no_finished env.iters _ rl hp)
            simp [List.countP_append, List.countP_cons,
                  cfgStep_no_finished, pretStep_no_finished, mcaStep_no_finished,
                  chkStep_no_finished, cleanupStep_no_finished, hl, isWFinished]
        · rw [if_neg hb] at h
          simp only [Option.some.injEq] at h
          subst h
          simp [List.countP_append, List.countP_cons,
                cfgStep_no_finished, pretStep_no_finished, mcaStep_no_finished,
                chkStep_no_finished, cleanupStep_no_finished, isWFinished]
      · rw [if_neg (not_not_intro h1), if_pos h2] at h
        simp only [Option.some.injEq] at h
        subst h
        rfl
    · rw [if_pos h1] at h
      simp only [Option.some.injEq] at h
      subst h
      rfl
  · intro h1 h2
    unfold DP5Worker.run
    simp [h1, h2]

/-- C3 witness: a concrete terminating run and the concrete short-circuit. -/
theorem worker_finished_witness :
    ((DP5Worker.run bitZeroEmptyEnv freshWorker).map fun r => r.2.countP isWFinished)
      = some 1
    ∧ DP5Worker.run bitZeroEmptyEnv {freshWorker with buffersAllocated := false} =
        some ({freshWorker with buffersAllocated := false},
              [.errorEv "DP5 API buffers not allocated. Cannot start worker.",
               .finishedEv]) := by
  constructor
  · rcases hr : DP5Worker.run bitZeroEmptyEnv freshWorker with _ | r
    · exact absurd hr (by decide)
    · simp [(worker_finished_exactly_once bitZeroEmptyEnv freshWorker).1 r hr]
  · exact (worker_finished_exactly_once bitZeroEmptyEnv
      {freshWorker with buffersAllocated := false}).2 rfl rfl

/-- C4 counterexample: a run in which the fetched snapshot has bit 5 of raw
byte 35 clear but the final spectrum fetch returns CHANNELS = 0 publishes
no further spectrum at all: one status snapshot, zero spectra, one
finished.  The claim demands exactly one more spectrum on every such
snapshot. -/
theorem final_spectrum_skipped_on_empty_buffer :
    ((DP5Worker.run bitZeroEmptyEnv freshWorker).map fun r =>
        (r.2.countP isWStatus, r.2.countP isWSpectrum, r.2.countP isWFinished))
      = some (1, 0, 1) := by
  decide

/-- C4 (amended): when an iteration's fetched snapshot has bit 5 of raw
byte 35 clear, the poll loop terminates within that same iteration — the
remaining iteration environments are never consumed — and publishes at most
one more spectrum: exactly one when the final spectrum fetch succeeds with
a channel count in range. -/
theorem pollLoop_completion_detection (w : Worker) (it : DP5Worker.IterEnv)
    (rest : List DP5Worker.IterEnv) (raw : Nat)
    (hrun : w.running = true) (hstop : it.stopRequested = false)
    (hst : it.status = .ok raw) (hbit : (raw >>> 5) &&& 1 = 0) :
    DP5Worker.pollLoop (it :: rest) w = DP5Worker.pollLoop [it] w
    ∧ ∃ evs, DP5Worker.pollLoop (it :: rest) w = some ({w with running := false}, evs)
        ∧ evs.countP isWSpectrum ≤ 1
        ∧ (∀ ch, it.spec = .ok ch → 0 < ch → ch ≤ 8192 →
             evs.countP isWSpectrum = 1) := by
  rw [Nat.and_one_is_mod] at hbit
  constructor
  · unfold DP5Worker.pollLoop
    simp [hrun, hstop, hst, hbit]
  · refine ⟨[WEvent.statusReady,
      WEvent.message "MCA Disabled flag detected. Acquisition finished."] ++
      (match it.spec with
       | .ok ch => if 0 < ch ∧ ch ≤ 8192 then [WEvent.spectrumReady] else []
       | .attrErr => [WEvent.errorEv "Error getting final spectrum."]
       | .exc => [WEvent.errorEv "Error getting final spectrum."]), ?_, ?_, ?_⟩
    · unfold DP5Worker.pollLoop
      simp [hrun, hstop, hst, hbit]
    · rcases hsp : it.spec with ch | _ | _
      · dsimp only
        by_cases hch : 0 < ch ∧ ch ≤ 8192
        · rw [if_pos hch]
          decide
        · rw [if_neg hch]
          decide
      · decide
      · decide
    · intro ch hsp h1 h2
      rw [hsp]
      dsimp only
      rw [if_pos ⟨h1, h2⟩]
      decide

/-- C4 witness for the amended theorem: a concrete bit-clear snapshot with
a valid final buffer publishes exactly one more spectrum, independent of a
pending further iteration. -/
theorem pollLoop_completion_witness :
    DP5Worker.pollLoop
        [{ stopRequested := false, status := .ok 0, spec := .ok 100 },
         { stopRequested := false, status := .ok 255, spec := .ok 5 }]
        {freshWorker with running := true}
      = DP5Worker.pollLoop [{ stopRequested := false, status := .ok 0, spec := .ok 100 }]
          {freshWorker with running := true}
    ∧ ∃ evs, DP5Worker.pollLoop
        [{ stopRequested := false, status := .ok 0, spec := .ok 100 },
         { stopRequested := false, status := .ok 255, spec := .ok 5 }]
        {freshWorker with running := true}
      = some ({freshWorker with running := false}, evs)
      ∧ evs.countP isWSpectrum = 1 := by
  obtain ⟨h1, evs, he, _, hone⟩ :=
    pollLoop_completion_detection {freshWorker with running := true}
      { stopRequested := false, status := .ok 0, spec := .ok 100 }
      [{ stopRequested := false, status := .ok 255, spec := .ok 5 }] 0
      rfl rfl rfl (by decide)
  exact ⟨h1, evs, he, hone 100 rfl (by decide) (by decide)⟩

/-- C2: the code contradicts the claim: start_sequence with an invalid
repetition count (0) on otherwise healthy controllers emits
`sequence_aborted` but then still starts the run — it returns True, leaves
the manager running, and emits `sequence_started`. -/
theorem start_sequence_validation_failure_still_starts :
    (SequenceManager.start_sequence 0 5 false "data" true false seqIdle).1 = true
    ∧ (SequenceManager.start_sequence 0 5 false "data" true false seqIdle).2.1.running = true
    ∧ SeqEvent.sequenceAborted "Invalid repetitions value."
        ∈ (SequenceManager.start_sequence 0 5 false "data" true false seqIdle).2.2
    ∧ SeqEvent.sequenceStarted
        ∈ (SequenceManager.start_sequence 0 5 false "data" true false seqIdle).2.2 := by
  decide

/-- A successful HV-off command clears the source HV flag. -/
theorem set_hv_off_success (m : MiniXState)
    (h1 : m.apiLoaded = true) (h2 : m.appRunning = true) :
    (MiniXController.set_hv_off false m).1 = {m with hvFlag := false} := by
  unfold MiniXController.set_hv_off
  simp [h1, h2]

/-- Finalizing a running continuous-mode sequence turns the source HV off. -/
theorem finalize_hv_off (s : SeqState) (m : MiniXState)
    (hrun : s.running = true) (hcont : s.minixContinuous = true)
    (hm : s.minix = some m) (h1 : m.apiLoaded = true) (h2 : m.appRunning = true) :
    (SequenceManager.finalize false s).1.minix = some {m with hvFlag := false} := by
  unfold SequenceManager.finalize
  simp [hrun, hcont, hm, set_hv_off_success m h1 h2]

/-- Aborting a running continuous-mode sequence turns the source HV off. -/
theorem abort_hv_off (reason : String) (s : SeqState) (m : MiniXState)
    (hrun : s.running = true) (hcont : s.minixContinuous = true)
    (hm : s.minix = some m) (h1 : m.apiLoaded = true) (h2 : m.appRunning = true) :
    (SequenceManager.abort_sequence reason false s).1.minix = some {m with hvFlag := false} := by
  unfold SequenceManager.abort_sequence
  rw [if_neg (not_not_intro hrun)]
  exact finalize_hv_off {s with errorReason := reason} m hrun hcont hm h1 h2

/-- In continuous mode a repetition body leaves the sequence flags and the
source controller alone when it succeeds, and turns the source HV off (via
abort, then finalize) when it aborts. -/
theorem doRep_cont_hv (e : RepEnv) (s : SeqState) (m : MiniXState)
    (hcont : s.minixContinuous = true) (hrun : s.running = true)
    (hm : s.minix = some m) (h1 : m.apiLoaded = true) (h2 : m.appRunning = true)
    (hoff : e.hvOffRaises = false) :
    ((SequenceManager.doRep e s).2.2 = false →
      (SequenceManager.doRep e s).1.minix = s.minix
        ∧ (SequenceManager.doRep e s).1.minixContinuous = true
        ∧ (SequenceManager.doRep e s).1.running = true
        ∧ (SequenceManager.doRep e s).1.errorReason = s.errorReason)
    ∧ ((SequenceManager.doRep e s).2.2 = true →
      (SequenceManager.doRep e s).1.minix = some {m with hvFlag := false}) := by
  unfold SequenceManager.doRep
  simp only [hcont, hoff, not_true, if_false, Bool.false_eq_true, ite_false]
  by_cases hp : s.dp5Present
  case neg =>
    simp only [hp, Bool.false_eq_true, not_false_eq_true, if_true]
    refine ⟨fun hf => absurd hf (by simp), fun _ => ?_⟩
    exact abort_hv_off _ _ m hrun rfl hm h1 h2
  case pos =>
    simp only [hp, not_true, Bool.true_eq_false, if_false]
    by_cases hcn : e.dp5ConnectedAtStart
    case neg =>
      simp only [hcn, Bool.false_eq_true, not_false_eq_true, if_true]
      refine ⟨fun hf => absurd hf (by simp), fun _ => ?_⟩
      exact abort_hv_off _ _ m hrun rfl hm h1 h2
    case pos =>
      simp only [hcn, not_true, Bool.true_eq_false, if_false]
      by_cases hsr : e.startAcquisitionRaises
      case pos =>
        simp only [hsr, if_true]
        refine ⟨fun hf => absurd hf (by simp), fun _ => ?_⟩
        exact abort_hv_off _ _ m hrun rfl hm h1 h2
      case neg =>
        simp only [hsr, Bool.false_eq_true, if_false]
        by_cases hfo : s.saveFolder ≠ "" ∧ e.folderOkAtSave
        case neg =>
          rw [if_pos hfo]
          refine ⟨fun hf => absurd hf (by simp), fun _ => ?_⟩
          exact abort_hv_off _ _ m hrun rfl hm h1 h2
        case pos =>
          rw [if_neg (not_not_intro hfo)]
          by_cases hsc : e.saveCallRaises
          case pos =>
            simp only [hsc, if_true]
            refine ⟨fun hf => absurd hf (by simp), fun _ => ?_⟩
            exact abort_hv_off _ _ m hrun rfl hm h1 h2
          case neg =>
            simp only [hsc, Bool.false_eq_true, if_false]
            by_cases hsv : truthy e.saveResult
            case neg =>
              simp only [hsv, Bool.false_eq_true, not_false_eq_true, if_true]
              refine ⟨fun hf => absurd hf (by simp), fun _ => ?_⟩
              exact abort_hv_off _ _ m hrun rfl hm h1 h2
            case pos =>
              simp only [hsv, not_true, Bool.true_eq_false, if_false]
              refine ⟨fun _ => ?_, fun ht => absurd ht (by simp)⟩
              refine ⟨?_, ?_, ?_, ?_⟩ <;> simp [hrun]

/-- Along a continuous-mode run, every terminating path passes through a
finalize that commands the source HV off. -/
theorem runSteps_cont_hv (envs : List RepEnv) :
    ∀ (s : SeqState) (m : MiniXState),
      s.running = true → s.minixContinuous = true → s.minix = some m →
      m.apiLoaded = true → m.appRunning = true →
      (∀ e ∈ envs, e.hvOffRaises = false) →
      ∀ r, SequenceManager.runSteps false envs s = some r →
        SequenceManager.sourceHvOn r.1.minix = false := by
  induction envs with
  | nil =>
    intro s m hrun hcont hm h1 h2 _ r h
    unfold SequenceManager.runSteps at h
    unfold SequenceManager.preStep at h
    dsimp only at h
    rw [if_neg (not_not_intro hrun)] at h
    by_cases herr : s.errorReason ≠ ""
    · rw [if_pos herr] at h
      simp only [Option.some.injEq] at h
      subst h
      simp [SequenceManager.sourceHvOn, finalize_hv_off s m hrun hcont hm h1 h2]
    · rw [if_neg herr] at h
      by_cases hgt : s.currentRep + 1 > s.totalReps
      · rw [if_pos hgt] at h
        simp only [Option.some.injEq] at h
        subst h
        simp [SequenceManager.sourceHvOn,
              finalize_hv_off {s with currentRep := s.currentRep + 1} m hrun hcont hm h1 h2]
      · rw [if_neg hgt] at h
        exact absurd h (by simp)
  | cons e rest ih =>
    intro s m hrun hcont hm h1 h2 henv r h
    have hoffe : e.hvOffRaises = false := henv e (List.mem_cons_self e rest)
    have henv2 : ∀ x ∈ rest, x.hvOffRaises = false :=
      fun x hx => henv x (List.mem_cons_of_mem e hx)
    unfold SequenceManager.runSteps at h
    dsimp only at h
    by_cases hus : e.userStop
    · rw [if_pos hus, hoffe] at h
      simp only [Option.some.injEq] at h
      subst h
      simp [SequenceManager.sourceHvOn,
            abort_hv_off "User aborted" s m hrun hcont hm h1 h2]
    · rw [if_neg hus] at h
      unfold SequenceManager.preStep at h
      dsimp only at h
      rw [if_neg (not_not_intro hrun)] at h
      by_cases herr : s.errorReason ≠ ""
      · rw [if_pos herr] at h
        simp only [Option.some.injEq] at h
        subst h
        simp [SequenceManager.sourceHvOn, finalize_hv_off s m hrun hcont hm h1 h2]
      · rw [if_neg herr] at h
        by_cases hgt : s.currentRep + 1 > s.totalReps
        · rw [if_pos hgt] at h
          simp only [Option.some.injEq] at h
          subst h
          simp [SequenceManager.sourceHvOn,
                finalize_hv_off {s with currentRep := s.currentRep + 1} m hrun hcont hm h1 h2]
        · rw [if_neg hgt] at h
          dsimp only at h
          by_cases hab : (SequenceManager.doRep e {s with currentRep := s.currentRep + 1}).2.2
          · rw [if_pos hab] at h
            simp only [Option.some.injEq] at h
            subst h
            have hv := (doRep_cont_hv e {s with currentRep := s.currentRep + 1} m
              hcont hrun hm h1 h2 hoffe).2 hab
            simp [SequenceManager.sourceHvOn, hv]
          · rw [if_neg hab] at h
            rcases hr : SequenceManager.runSteps false rest
                (SequenceManager.doRep e {s with currentRep := s.currentRep + 1}).1
              with _ | r2
            · rw [hr] at h
              exact absurd h (by simp)
            · rw [hr] at h
              simp only [Option.some.injEq] at h
              subst h
              obtain ⟨hmx, hcont2, hrun2, _⟩ :=
                (doRep_cont_hv e {s with currentRep := s.currentRep + 1} m
                  hcont hrun hm h1 h2 hoffe).1 (Bool.eq_false_iff.mpr hab)
              exact ih _ m hrun2 hcont2 (hmx.trans hm) h1 h2 henv2 r2 hr

/-- C1: for a continuous-mode sequence run that entered the running state,
however the run ends — normal completion, abort of any kind (including a
user stop), or an exception while starting a repetition — finalize commands
the source HV off, so source HV-on is false afterwards.  Hypotheses: the
MiniX controller exists with its API loaded and its controller application
running, and the HV-off commands are deliverable (send_command does not
raise). -/
theorem seq_continuous_hv_off_after_finalize
    (envs : List RepEnv) (s : SeqState) (m : MiniXState)
    (hrun : s.running = true) (hcont : s.minixContinuous = true)
    (hm : s.minix = some m) (h1 : m.apiLoaded = true) (h2 : m.appRunning = true)
    (henv : ∀ e ∈ envs, e.hvOffRaises = false) :
    SequenceManager.sourceHvOn (SequenceManager.finalize false s).1.minix = false
    ∧ (∀ r, SequenceManager.runSteps false envs s = some r →
        SequenceManager.sourceHvOn r.1.minix = false) := by
  refine ⟨?_, fun r h => runSteps_cont_hv envs s m hrun hcont hm h1 h2 henv r h⟩
  simp [SequenceManager.sourceHvOn, finalize_hv_off s m hrun hcont hm h1 h2]

/-- C1 witness: a concrete one-repetition continuous run starting with HV
on ends with HV off, both through a direct finalize and through the whole
run. -/
theorem seq_continuous_hv_off_witness :
    SequenceManager.sourceHvOn
        (SequenceManager.finalize false seqContinuousRunning).1.minix = false
    ∧ SequenceManager.sourceHvOn
        (((SequenceManager.runSteps false [repOk] seqContinuousRunning).getD
            (seqContinuousRunning, [])).1.minix) = false := by
  obtain ⟨hfin, hrunlvl⟩ :=
    seq_continuous_hv_off_after_finalize [repOk] seqContinuousRunning minixHvOn
      rfl rfl rfl rfl rfl (by decide)
  refine ⟨hfin, ?_⟩
  rcases hr : SequenceManager.runSteps false [repOk] seqContinuousRunning with _ | r2
  · exact absurd hr (by decide)
  · simpa using hrunlvl r2 hr

/-- The HV-off helper emits no sequence_aborted event. -/
theorem set_hv_off_countA (b : Bool) (m : MiniXState) :
    (MiniXController.set_hv_off b m).2.countP isSeqAborted = 0 := by
  unfold MiniXController.set_hv_off
  repeat' split
  all_goals rfl

/-- The HV-off helper emits no sequence_finished event. -/
theorem set_hv_off_countF (b : Bool) (m : MiniXState) :
    (MiniXController.set_hv_off b m).2.countP isSeqFinished = 0 := by
  unfold MiniXController.set_hv_off
  repeat' split
  all_goals rfl

/-- The HV-off helper emits no sequence_step_finished event. -/
theorem set_hv_off_countS (b : Bool) (m : MiniXState) :
    (MiniXController.set_hv_off b m).2.countP isStepFinished = 0 := by
  unfold MiniXController.set_hv_off
  repeat' split
  all_goals rfl

/-- A finalize on a recorded error emits no terminal or step event at all:
the aborted signal was already emitted by _abort_sequence, and the
finished branch is skipped. -/
theorem finalize_counts_error (b : Bool) (s : SeqState) (hne : s.errorReason ≠ "") :
    (SequenceManager.finalize b s).2.countP isSeqAborted = 0
    ∧ (SequenceManager.finalize b s).2.countP isSeqFinished = 0
    ∧ (SequenceManager.finalize b s).2.countP isStepFinished = 0 := by
  unfold SequenceManager.finalize
  rw [if_neg (by simp [hne])]
  dsimp only
  rw [if_pos hne]
  by_cases hcw : s.minixContinuous ∧ s.running
  · rw [if_pos hcw]
    rcases s.minix with _ | m
    · simp
    · simp [List.countP_append, set_hv_off_countA, set_hv_off_countF, set_hv_off_countS]
  · rw [if_neg hcw]
    simp

/-- A finalize of a running, error-free sequence emits exactly one
sequence_finished carrying the corrected repetition count, and nothing
else that terminates or counts a step. -/
theorem finalize_counts_finish (b : Bool) (s : SeqState)
    (hrun : s.running = true) (herr : s.errorReason = "") :
    (SequenceManager.finalize b s).2.countP isSeqFinished = 1
    ∧ SeqEvent.sequenceFinished
        (if s.currentRep > s.totalReps then s.currentRep - 1 else s.currentRep)
        ∈ (SequenceManager.finalize b s).2
    ∧ (SequenceManager.finalize b s).2.countP isSeqAborted = 0
    ∧ (SequenceManager.finalize b s).2.countP isStepFinished = 0 := by
  unfold SequenceManager.finalize
  rw [if_neg (by simp [hrun])]
  dsimp only
  rw [if_neg (not_not_intro herr), if_pos hrun]
  by_cases hcw : s.minixContinuous ∧ s.running
  · rw [if_pos hcw]
    rcases s.minix with _ | m
    · simp [isSeqFinished, isSeqAborted, isStepFinished]
    · simp [List.countP_append, List.countP_cons, set_hv_off_countA, set_hv_off_countF,
            set_hv_off_countS, isSeqFinished, isSeqAborted, isStepFinished]
  · rw [if_neg hcw]
    simp [isSeqFinished, isSeqAborted, isStepFinished]

/-- Aborting a running sequence emits exactly one sequence_aborted and no
sequence_finished or sequence_step_finished. -/
theorem abort_counts (reason : String) (b : Bool) (s : SeqState)
    (hrun : s.running = true) (hne : reason ≠ "") :
    (SequenceManager.abort_sequence reason b s).2.countP isSeqAborted = 1
    ∧ (SequenceManager.abort_sequence reason b s).2.countP isSeqFinished = 0
    ∧ (SequenceManager.abort_sequence reason b s).2.countP isStepFinished = 0 := by
  unfold SequenceManager.abort_sequence
  rw [if_neg (not_not_intro hrun)]
  dsimp only
  have hf := finalize_counts_error b {s with errorReason := reason} hne
  by_cases hd : s.dp5Present ∧ s.dp5Acquiring
  · rw [if_pos hd]
    simp [List.countP_append, List.countP_cons, hf.1, hf.2.1, hf.2.2,
          isSeqAborted, isSeqFinished, isStepFinished]
  · rw [if_neg hd]
    simp [List.countP_append, List.countP_cons, hf.1, hf.2.1, hf.2.2,
          isSeqAborted, isSeqFinished, isStepFinished]

/-- A repetition whose every step succeeds does not abort, preserves the
sequence bookkeeping fields, and emits exactly one sequence_step_finished
and no terminal event. -/
theorem doRep_normal (e : RepEnv) (s : SeqState)
    (hn : SequenceManager.NormalRep e) (hdp5 : s.dp5Present = true)
    (hfold : s.saveFolder ≠ "") :
    (SequenceManager.doRep e s).2.2 = false
    ∧ (SequenceManager.doRep e s).1.running = s.running
    ∧ (SequenceManager.doRep e s).1.errorReason = s.errorReason
    ∧ (SequenceManager.doRep e s).1.currentRep = s.currentRep
    ∧ (SequenceManager.doRep e s).1.totalReps = s.totalReps
    ∧ (SequenceManager.doRep e s).1.saveFolder = s.saveFolder
    ∧ (SequenceManager.doRep e s).1.dp5Present = s.dp5Present
    ∧ (SequenceManager.doRep e s).2.1.countP isStepFinished = 1
    ∧ (SequenceManager.doRep e s).2.1.countP isSeqAborted = 0
    ∧ (SequenceManager.doRep e s).2.1.countP isSeqFinished = 0 := by
  obtain ⟨hu, hcn, hsr, hfo, hsc, hsv⟩ := hn
  unfold SequenceManager.doRep
  dsimp only
  by_cases hc : s.minixContinuous <;>
    rcases hmx : s.minix with _ | m <;>
      by_cases hlt : s.currentRep < s.totalReps <;>
        by_cases hg : e.hvOnGranted <;>
          simp [hc, hmx, hlt, hg, hdp5, hcn, hsr, hfo, hsc, hsv, hfold,
                List.countP_append, List.countP_cons, isStepFinished, isSeqAborted,
                isSeqFinished, SequenceManager.grantSafeHvOn,
                set_hv_off_countA, set_hv_off_countF, set_hv_off_countS,
                -List.countP_eq_zero]

/-- A failing repetition aborts the sequence with exactly one
sequence_aborted and no sequence_finished. -/
theorem doRep_fail (e : RepEnv) (s : SeqState)
    (hf : SequenceManager.RepFails e) (hrun : s.running = true)
    (hdp5 : s.dp5Present = true) (hfold : s.saveFolder ≠ "") :
    (SequenceManager.doRep e s).2.2 = true
    ∧ (SequenceManager.doRep e s).2.1.countP isSeqAborted = 1
    ∧ (SequenceManager.doRep e s).2.1.countP isSeqFinished = 0 := by
  unfold SequenceManager.doRep
  dsimp only
  by_cases hc : s.minixContinuous <;>
    [simp only [hc, not_true, Bool.true_eq_false, ite_false, if_false];
     simp only [hc, Bool.false_eq_true, not_false_eq_true, ite_true, if_true]] <;>
  · by_cases hcn : e.dp5ConnectedAtStart
    case neg =>
      simp only [SequenceManager.grantSafeHvOn, hdp5, hcn, not_true, Bool.true_eq_false,
        Bool.false_eq_true, not_false_eq_true, if_true, if_false, ite_true, ite_false]
      refine ⟨by trivial, ?_, ?_⟩
      · simp [List.countP_append, List.countP_cons, isSeqAborted, isStepFinished,
              isSeqFinished, -List.countP_eq_zero]
        refine (abort_counts _ _ _ ?_ (by decide)).1
        exact hrun
      · simp [List.countP_append, List.countP_cons, isSeqAborted, isStepFinished,
              isSeqFinished, -List.countP_eq_zero]
        refine (abort_counts _ _ _ ?_ (by decide)).2.1
        exact hrun
    case pos =>
      simp only [SequenceManager.grantSafeHvOn, hdp5, hcn, not_true, Bool.true_eq_false,
        if_false, ite_false]
      by_cases hsr : e.startAcquisitionRaises
      case pos =>
        simp only [hsr, if_true, ite_true]
        refine ⟨by trivial, ?_, ?_⟩
        · simp [List.countP_append, List.countP_cons, isSeqAborted, isStepFinished,
                isSeqFinished, -List.countP_eq_zero]
          refine (abort_counts _ _ _ ?_ (by decide)).1
          exact hrun
        · simp [List.countP_append, List.countP_cons, isSeqAborted, isStepFinished,
                isSeqFinished, -List.countP_eq_zero]
          refine (abort_counts _ _ _ ?_ (by decide)).2.1
          exact hrun
      case neg =>
        simp only [hsr, Bool.false_eq_true, if_false, ite_false]
        by_cases hfo : e.folderOkAtSave
        case neg =>
          rw [if_pos (by simp [hfo])]
          refine ⟨by trivial, ?_, ?_⟩
          · simp [List.countP_append, List.countP_cons, isSeqAborted, isStepFinished,
                  isSeqFinished, -List.countP_eq_zero]
            refine (abort_counts _ _ _ ?_ (by decide)).1
            exact hrun
          · simp [List.countP_append, List.countP_cons, isSeqAborted, isStepFinished,
                  isSeqFinished, -List.countP_eq_zero]
            refine (abort_counts _ _ _ ?_ (by decide)).2.1
            exact hrun
        case pos =>
          rw [if_neg (not_not_intro ⟨hfold, hfo⟩)]
          by_cases hsc : e.saveCallRaises
          case pos =>
            rw [if_pos hsc]
            refine ⟨by trivial, ?_, ?_⟩
            · simp [List.countP_append, List.countP_cons, isSeqAborted, isStepFinished,
                    isSeqFinished, -List.countP_eq_zero]
              refine (abort_counts _ _ _ ?_ (by decide)).1
              exact hrun
            · simp [List.countP_append, List.countP_cons, isSeqAborted, isStepFinished,
                    isSeqFinished, -List.countP_eq_zero]
              refine (abort_counts _ _ _ ?_ (by decide)).2.1
              exact hrun
          case neg =>
            rw [if_neg hsc]
            by_cases hsv : truthy e.saveResult
            case neg =>
              rw [if_pos hsv]
              refine ⟨by trivial, ?_, ?_⟩
              · simp [List.countP_append, List.countP_cons, isSeqAborted, isStepFinished,
                      isSeqFinished, -List.countP_eq_zero]
                refine (abort_counts _ _ _ ?_ (by decide)).1
                exact hrun
              · simp [List.countP_append, List.countP_cons, isSeqAborted, isStepFinished,
                      isSeqFinished, -List.countP_eq_zero]
                refine (abort_counts _ _ _ ?_ (by decide)).2.1
                exact hrun
            case pos =>
              rcases hf with h | h | h | h | h <;> simp_all

/-- A run whose repetitions all succeed, with exactly as many environments
as remaining repetitions, terminates with exactly one sequence_finished
carrying the total repetition count, one step_finished per repetition, and
no aborted event. -/
theorem runSteps_normal (fin : Bool) (envs : List RepEnv) :
    ∀ s : SeqState, s.running = true → s.errorReason = "" → s.dp5Present = true →
      s.saveFolder ≠ "" → (∀ e ∈ envs, SequenceManager.NormalRep e) →
      s.currentRep + (envs.length : Int) = s.totalReps →
      ∃ r, SequenceManager.runSteps fin envs s = some r
        ∧ r.2.countP isSeqFinished = 1
        ∧ SeqEvent.sequenceFinished s.totalReps ∈ r.2
        ∧ r.2.countP isStepFinished = envs.length
        ∧ r.2.countP isSeqAborted = 0 := by
  induction envs with
  | nil =>
    intro s hrun herr hdp5 hfold _ hlen
    simp only [List.length_nil] at hlen
    push_cast at hlen
    unfold SequenceManager.runSteps SequenceManager.preStep
    dsimp only
    rw [if_neg (not_not_intro hrun), if_neg (not_not_intro herr)]
    have hgt : s.currentRep + 1 > s.totalReps := by omega
    rw [if_pos hgt]
    obtain ⟨c1, cmem, c2, c3⟩ :=
      finalize_counts_finish fin {s with currentRep := s.currentRep + 1} hrun herr
    dsimp only at cmem
    rw [if_pos hgt] at cmem
    have hv : s.currentRep + 1 - 1 = s.totalReps := by omega
    rw [hv] at cmem
    exact ⟨_, rfl, c1, cmem, by simpa using c3, c2⟩
  | cons e rest ih =>
    intro s hrun herr hdp5 hfold henv hlen
    have hne := henv e (List.mem_cons_self e rest)
    have henv2 : ∀ x ∈ rest, SequenceManager.NormalRep x :=
      fun x hx => henv x (List.mem_cons_of_mem e hx)
    have hu : e.userStop = false := hne.1
    simp only [List.length_cons] at hlen
    push_cast at hlen
    unfold SequenceManager.runSteps
    dsimp only
    rw [if_neg (by simp [hu])]
    unfold SequenceManager.preStep
    dsimp only
    rw [if_neg (not_not_intro hrun), if_neg (not_not_intro herr)]
    have hgt : ¬ (s.currentRep + 1 > s.totalReps) := by omega
    rw [if_neg hgt]
    dsimp only
    obtain ⟨hab, hrun2, herr2, hcur2, htot2, hfold2, hdp52, hstep1, hab0, hfin0⟩ :=
      doRep_normal e {s with currentRep := s.currentRep + 1} hne hdp5 hfold
    rw [if_neg (by simp [hab])]
    obtain ⟨r2, hr2, k1, kmem, k3, k4⟩ :=
      ih (SequenceManager.doRep e {s with currentRep := s.currentRep + 1}).1
        (hrun2.trans hrun) (herr2.trans herr) (hdp52.trans hdp5)
        (by rw [hfold2]; exact hfold) henv2
        (by rw [hcur2, htot2]; dsimp only; omega)
    rw [hr2]
    rw [htot2] at kmem
    try dsimp only at kmem
    refine ⟨_, rfl, ?_, ?_, ?_, ?_⟩
    · simp [List.countP_append, hfin0, k1, -List.countP_eq_zero]
    · exact List.mem_append_right _ kmem
    · simp [List.countP_append, hstep1, k3, -List.countP_eq_zero]
      omega
    · simp [List.countP_append, hab0, k4, -List.countP_eq_zero]

/-- A run whose first failing repetition comes after a prefix of successful
ones, with at least one repetition still due, terminates with exactly one
sequence_aborted and no sequence_finished: once a repetition aborts, the
terminal finished event is never emitted. -/
theorem runSteps_fail (fin : Bool) (pre : List RepEnv) :
    ∀ s : SeqState, s.running = true → s.errorReason = "" → s.dp5Present = true →
      s.saveFolder ≠ "" → (∀ x ∈ pre, SequenceManager.NormalRep x) →
      ∀ (e : RepEnv) (rest : List RepEnv), e.userStop = false →
        SequenceManager.RepFails e →
        s.currentRep + (pre.length : Int) < s.totalReps →
        ∃ r, SequenceManager.runSteps fin (pre ++ e :: rest) s = some r
          ∧ r.2.countP isSeqAborted = 1
          ∧ r.2.countP isSeqFinished = 0 := by
  induction pre with
  | nil =>
    intro s hrun herr hdp5 hfold _ e rest hu hfail hlen
    simp only [List.length_nil] at hlen
    push_cast at hlen
    rw [List.nil_append]
    unfold SequenceManager.runSteps
    dsimp only
    rw [if_neg (by simp [hu])]
    unfold SequenceManager.preStep
    dsimp only
    rw [if_neg (not_not_intro hrun), if_neg (not_not_intro herr)]
    have hgt : ¬ (s.currentRep + 1 > s.totalReps) := by omega
    rw [if_neg hgt]
    dsimp only
    obtain ⟨hab, ha1, ha0⟩ :=
      doRep_fail e {s with currentRep := s.currentRep + 1} hfail hrun hdp5 hfold
    rw [if_pos hab]
    exact ⟨_, rfl, ha1, ha0⟩
  | cons x pre2 ih =>
    intro s hrun herr hdp5 hfold hnorm e rest hu hfail hlen
    have hx := hnorm x (List.mem_cons_self x pre2)
    have hnorm2 : ∀ y ∈ pre2, SequenceManager.NormalRep y :=
      fun y hy => hnorm y (List.mem_cons_of_mem x hy)
    have hux : x.userStop = false := hx.1
    simp only [List.length_cons] at hlen
    push_cast at hlen
    rw [List.cons_append]
    unfold SequenceManager.runSteps
    dsimp only
    rw [if_neg (by simp [hux])]
    unfold SequenceManager.preStep
    dsimp only
    rw [if_neg (not_not_intro hrun), if_neg (not_not_intro herr)]
    have hgt : ¬ (s.currentRep + 1 > s.totalReps) := by omega
    rw [if_neg hgt]
    dsimp only
    obtain ⟨hab, hrun2, herr2, hcur2, htot2, hfold2, hdp52, _, hab0, hfin0⟩ :=
      doRep_normal x {s with currentRep := s.currentRep + 1} hx hdp5 hfold
    rw [if_neg (by simp [hab])]
    obtain ⟨r2, hr2, k1, k0⟩ :=
      ih (SequenceManager.doRep x {s with currentRep := s.currentRep + 1}).1
        (hrun2.trans hrun) (herr2.trans herr) (hdp52.trans hdp5)
        (by rw [hfold2]; exact hfold) hnorm2 e rest hu hfail
        (by rw [hcur2, htot2]; dsimp only; omega)
    rw [hr2]
    refine ⟨_, rfl, ?_, ?_⟩
    · simp [List.countP_append, hab0, k1, -List.countP_eq_zero]
    · simp [List.countP_append, hfin0, k0, -List.countP_eq_zero]

/-- C6: for a validly started sequence with N repetitions: if every
repetition completes normally, exactly one sequence_finished(N) is emitted
and the reported count equals the number of step_finished events actually
emitted (so it never over-reports); if any repetition fails (for example
the save fails), sequence_aborted is emitted exactly once and
sequence_finished is never emitted for that run. -/
theorem seq_repetition_accounting (fin : Bool) (s : SeqState)
    (hrun : s.running = true) (herr : s.errorReason = "")
    (hdp5 : s.dp5Present = true) (hfold : s.saveFolder ≠ "")
    (hc0 : s.currentRep = 0) :
    (∀ envs : List RepEnv, (∀ e ∈ envs, SequenceManager.NormalRep e) →
       (envs.length : Int) = s.totalReps →
       ∃ r, SequenceManager.runSteps fin envs s = some r
         ∧ r.2.countP isSeqFinished = 1
         ∧ SeqEvent.sequenceFinished s.totalReps ∈ r.2
         ∧ (r.2.countP isStepFinished : Int) = s.totalReps
         ∧ r.2.countP isSeqAborted = 0)
    ∧ (∀ (pre : List RepEnv) (e : RepEnv) (rest : List RepEnv),
        (∀ x ∈ pre, SequenceManager.NormalRep x) → e.userStop = false →
        SequenceManager.RepFails e → (pre.length : Int) < s.totalReps →
        ∃ r, SequenceManager.runSteps fin (pre ++ e :: rest) s = some r
          ∧ r.2.countP isSeqAborted = 1
          ∧ r.2.countP isSeqFinished = 0) := by
  constructor
  · intro envs hn hlen
    obtain ⟨r, hr, a, b, c, d⟩ :=
      runSteps_normal fin envs s hrun herr hdp5 hfold hn (by rw [hc0]; omega)
    exact ⟨r, hr, a, b, by rw [c]; omega, d⟩
  · intro pre e rest hn hu hfail hlen
    exact runSteps_fail fin pre s hrun herr hdp5 hfold hn e rest hu hfail
      (by rw [hc0]; omega)

/-- C6 witness: a concrete three-repetition run finishing normally reports
sequence_finished(3) with three step_finished events, and the same start
aborting at the second repetition (save failure) emits one
sequence_aborted and no sequence_finished. -/
theorem seq_repetition_accounting_witness :
    (∃ r, SequenceManager.runSteps false [repOk, repOk, repOk] seqThreeReps = some r
       ∧ r.2.countP isSeqFinished = 1
       ∧ SeqEvent.sequenceFinished 3 ∈ r.2
       ∧ (r.2.countP isStepFinished : Int) = 3
       ∧ r.2.countP isSeqAborted = 0)
    ∧ (∃ r, SequenceManager.runSteps false ([repOk] ++ repSaveFails :: []) seqThreeReps
          = some r
       ∧ r.2.countP isSeqAborted = 1
       ∧ r.2.countP isSeqFinished = 0) := by
  obtain ⟨p1, p2⟩ :=
    seq_repetition_accounting false seqThreeReps rfl rfl rfl (by decide) rfl
  refine ⟨p1 [repOk, repOk, repOk] ?_ (by decide),
          p2 [repOk] repSaveFails [] ?_ (by decide)
            (Or.inr (Or.inr (Or.inr (Or.inr rfl)))) (by decide)⟩
  · intro e he
    simp only [List.mem_cons, List.not_mem_nil, or_false] at he
    rcases he with rfl | rfl | rfl <;> exact ⟨rfl, rfl, rfl, rfl, rfl, rfl⟩
  · intro x hx
    simp only [List.mem_singleton] at hx
    subst hx
    exact ⟨rfl, rfl, rfl, rfl, rfl, rfl⟩
